import Mathlib

/-!
# Verification of the systemSleep power-state manager core

Shallow embedding of the platform sleep/inhibit core of the systemSleep
repository (`linux_sleep.py`, `linux_sleep_helpers.py`, `windows_sleep.py`,
`windows_sleep_helpers.py`), together with theorems settling the spec's
claims about it.  External effects (subprocess spawning, signals, the clock)
are modelled as explicit input data; each Python function becomes a Lean
function over that data, keeping the source's control flow and strings.
-/

namespace SystemSleep

/-! ## String primitives

Python string operations used by the source: `in` (substring test),
`str.lower` (modelled for ASCII text, which is all the source compares),
and `str.strip`. -/

/-- Predicate `listStartsWith s p`: true when `p` is an initial segment of `s`. -/
def listStartsWith : List Char → List Char → Bool
  | _, [] => true
  | [], _ :: _ => false
  | a :: s, b :: p => a == b && listStartsWith s p

/-- Predicate `listContainsSub p s`: true when `p` occurs contiguously inside `s`
(the semantics of Python's `p in s` on strings). -/
def listContainsSub (p : List Char) : List Char → Bool
  | [] => listStartsWith [] p
  | c :: t => listStartsWith (c :: t) p || listContainsSub p t

/-- Python's `pat in s` for strings. -/
def strContainsSub (s pat : String) : Bool :=
  listContainsSub pat.data s.data

/-- Python's `s.lower()` on the ASCII text the source compares. -/
def strLower (s : String) : String :=
  ⟨s.data.map Char.toLower⟩

/-! ## CLI/config merge (`linux_sleep.main` lines 243-250, `windows_sleep.main`
lines 85-90)

Both CLI layers merge argparse results with the JSON config section.  An
absent flag parses to Python `None`; we model a parsed optional integer as
`Option Int` and a config entry as `Option Int` (`none` = key absent). -/

/-- Python `cli or dflt` on a parsed `Optional[int]`: `None` and `0` are
falsy, every other integer is truthy. -/
def pyOrInt (cli : Option Int) (dflt : Int) : Int :=
  match cli with
  | none => dflt
  | some v => if v = 0 then dflt else v

/-- Python `config.get(key, dflt)`. -/
def cfgGet (cfg : Option Int) (dflt : Int) : Int :=
  cfg.getD dflt

/-- Merge `timeout = args.timeout or config.get("sleep_command_timeout", 15)` —
identical lines in `linux_sleep.py` and `windows_sleep.py`. -/
def mergeTimeout (cliTimeout cfgTimeout : Option Int) : Int :=
  pyOrInt cliTimeout (cfgGet cfgTimeout 15)

/-- Merge `wake_delay = args.wake_delay or config.get("wake_delay_minutes", 5)`. -/
def mergeWakeDelay (cliWake cfgWake : Option Int) : Int :=
  pyOrInt cliWake (cfgGet cfgWake 5)

/-- Merge `default_delay = config.get("default_delay_minutes", 0)` followed by
`if args.delay is not None: default_delay = args.delay`. -/
def mergeInitialDelay (cliDelay cfgDelay : Option Int) : Int :=
  match cliDelay with
  | some v => v
  | none => cfgGet cfgDelay 0

/-! ## Sleep Executor (`linux_sleep_helpers.execute_sleep`,
`windows_sleep_helpers.execute_sleep`)

The call `subprocess.run(cmd, check=True, timeout=timeout)` is modelled by a
`SpawnRes` describing what the child process / spawn did; each constructor
corresponds to the outcome the Python call surfaces (return, or one of the
exceptions the `try` block can see). -/

/-- Outcome of `subprocess.run(..., check=True, timeout=t)` as seen by the
caller: normal completion with an exit code, `subprocess.TimeoutExpired`,
`FileNotFoundError` from the spawn (carrying its `str(e)` text), or any
other exception (carrying its `str(e)` text). -/
inductive SpawnRes where
  | exits (code : Nat)
  | timesOut
  | fileNotFound (msg : String)
  | otherExc (msg : String)
deriving Repr, DecidableEq

/-- Model of `linux_sleep_helpers.get_sleep_command`: dictionary lookup with
`"suspend"` as the default. -/
def get_sleep_command (sleepType : String) : List String :=
  if sleepType = "suspend" then ["systemctl", "suspend"]
  else if sleepType = "hibernate" then ["systemctl", "hibernate"]
  else if sleepType = "hybrid-sleep" then ["systemctl", "hybrid-sleep"]
  else ["systemctl", "suspend"]

/-- Model of `str(subprocess.CalledProcessError)` for the non-zero-exit branch
(modelled up to the Python repr of the argv list). -/
def calledProcessErrorStr (cmd : List String) (code : Nat) : String :=
  "Command " ++ toString cmd ++ " returned non-zero exit status " ++
    toString code ++ "."

/-- Model of `linux_sleep_helpers.execute_sleep(sleep_type, timeout)` returning the
source's `(success, error_message)` pair.  `check=True` turns a non-zero
exit into `CalledProcessError`; there is no `except FileNotFoundError`
clause, so a missing executable is caught by the final
`except Exception as e` clause. -/
def execute_sleep (sleepType : String) (timeoutS : Nat) (r : SpawnRes) :
    Bool × String :=
  match r with
  | .exits 0 => (true, "")
  | .exits c =>
      (false, "Sleep command failed: " ++
        calledProcessErrorStr (get_sleep_command sleepType) c)
  | .timesOut =>
      (false, "Sleep command timed out after " ++ toString timeoutS ++
        " seconds.")
  | .fileNotFound m => (false, "Unexpected error during sleep: " ++ m)
  | .otherExc m => (false, "Unexpected error during sleep: " ++ m)

/-- Model of `windows_sleep_helpers.execute_sleep(timeout)`: same `try/except`
ladder over the fixed `SLEEP_COMMAND`. -/
def windows_execute_sleep (timeoutS : Nat) (r : SpawnRes) : Bool × String :=
  match r with
  | .exits 0 => (true, "")
  | .exits c =>
      (false, "Sleep command failed: " ++
        calledProcessErrorStr
          ["Rundll32.exe", "Powrprof.dll,SetSuspendState", "Sleep"] c)
  | .timesOut =>
      (false, "Sleep command timed out after " ++ toString timeoutS ++
        " seconds.")
  | .fileNotFound m => (false, "Unexpected error during sleep: " ++ m)
  | .otherExc m => (false, "Unexpected error during sleep: " ++ m)

/-- Which branch of `execute_sleep`'s `try/except` ladder handles each spawn
outcome (identical ladder in the Linux and Windows helper). -/
inductive ExecBranch where
  | success
  | timeoutExpired
  | calledProcessError
  | genericException
deriving Repr, DecidableEq

def executeSleepBranch : SpawnRes → ExecBranch
  | .exits 0 => .success
  | .exits _ => .calledProcessError
  | .timesOut => .timeoutExpired
  | .fileNotFound _ => .genericException
  | .otherExc _ => .genericException

/-- The spec's `ExecutionOutcome.failureKind` taxonomy (§3, §4.3). -/
inductive FailureKind where
  | none
  | notSupportedPlatform
  | permissionDenied
  | timeout
  | commandNotFound
  | externalFailure
  | unknown
deriving Repr, DecidableEq

/-- Spec §4.3 outcome mapping applied to the ladder's branches: success →
None, timeout → Timeout, non-zero exit → ExternalFailure, and the
catch-all `except Exception` branch → Unknown ("any other exception during
spawn/wait"). -/
def specFailureKindOfBranch : ExecBranch → FailureKind
  | .success => .none
  | .timeoutExpired => .timeout
  | .calledProcessError => .externalFailure
  | .genericException => .unknown

/-! ## Permission Prober (`linux_sleep_helpers.check_sleep_permissions`)

The dry-run `subprocess.run(["systemctl", sleep_type, "--dry-run"],
capture_output=True, text=True, timeout=5)` is modelled by a `ProbeRes`
describing what that call did. -/

/-- The fixed bound the source passes to the dry-run: `timeout=5`. -/
def permissionCheckTimeoutSeconds : Nat := 5

/-- Outcome of the dry-run call as seen by `check_sleep_permissions`:
completion with a return code and captured stderr text,
`subprocess.TimeoutExpired`, `FileNotFoundError`, or any other exception. -/
inductive ProbeRes where
  | completes (returncode : Int) (stderrText : String)
  | timesOut
  | fileNotFound
  | otherExc (msg : String)
deriving Repr, DecidableEq

/-- Model of `linux_sleep_helpers.check_sleep_permissions(sleep_type)` returning the
source's `(has_permission, error_message)` pair.  Python's `s.strip()` is
modelled by `String.trim`. -/
def check_sleep_permissions (sleepType : String) (r : ProbeRes) :
    Bool × String :=
  if (["suspend", "hibernate", "hybrid-sleep"].contains sleepType) = false then
    (false, "Invalid sleep type: " ++ sleepType)
  else
    match r with
    | .completes rc errText =>
        if rc = 0 then (true, "")
        else if strContainsSub (strLower errText) "authentication" ||
                strContainsSub (strLower errText) "unauthorized" then
          (false, "Insufficient permissions for " ++ sleepType ++
            ". Try running with sudo or configure polkit rules.")
        else (false, "Cannot use " ++ sleepType ++ ": " ++ errText.trim)
    | .timesOut => (false, "Permission check timed out for " ++ sleepType)
    | .fileNotFound => (false, "systemctl command not found")
    | .otherExc m => (false, "Permission check failed: " ++ m)

/-- Which branch of `check_sleep_permissions` handles each input. -/
inductive PermBranch where
  | invalidType
  | granted
  | authDenied
  | otherStderr
  | timeoutExpired
  | notFoundBranch
  | genericException
deriving Repr, DecidableEq

def checkPermissionsBranch (sleepType : String) (r : ProbeRes) : PermBranch :=
  if (["suspend", "hibernate", "hybrid-sleep"].contains sleepType) = false then
    .invalidType
  else
    match r with
    | .completes rc errText =>
        if rc = 0 then .granted
        else if strContainsSub (strLower errText) "authentication" ||
                strContainsSub (strLower errText) "unauthorized" then
          .authDenied
        else .otherStderr
    | .timesOut => .timeoutExpired
    | .fileNotFound => .notFoundBranch
    | .otherExc _ => .genericException

/-- Spec §4.2 classification of the prober's branches into the failure
taxonomy: the authorization-phrase branch is `PermissionDenied`, the
remaining non-zero-exit diagnostics are the generic `Unknown`, timeout is
`Timeout`, a missing `systemctl` is `CommandNotFound`. -/
def specPermKindOfBranch : PermBranch → FailureKind
  | .invalidType => .unknown
  | .granted => .none
  | .authDenied => .permissionDenied
  | .otherStderr => .unknown
  | .timeoutExpired => .timeout
  | .notFoundBranch => .commandNotFound
  | .genericException => .unknown

/-! ## Module-load behaviour of `linux_sleep.py`

`linux_sleep.py` line 39 annotates `sleep_system`'s `logger` parameter with
`logging.Logger`, but the module's import block (lines 7-18) never imports
`logging` and there is no `from __future__ import annotations`.  Under
CPython's eager annotation semantics (all versions the repository targets),
each parameter annotation expression is evaluated when the `def` statement
executes during module load, so the unresolvable base name raises
`NameError` before `main` can run. -/

/-- Top-level names bound in `linux_sleep.py` before line 39 executes: the
imports (lines 7-18), the `prevent_process` global (line 22) and
`countdown_timer` (line 25). -/
def linuxSleepTopLevelNames : List String :=
  ["os", "sys", "time", "platform", "subprocess", "argparse", "signal",
   "Optional", "config_loader", "linux_sleep_helpers", "log_manager",
   "prevent_process", "countdown_timer"]

/-- Fact: `linux_sleep.py` has no `from __future__ import annotations` line. -/
def linuxSleepHasFutureAnnotImport : Bool := false

/-- Base names referenced by the annotation expressions of
`def sleep_system(sleep_type: str, logger: logging.Logger, timeout: int = 15)
-> bool` (line 39). -/
def sleepSystemAnnotBaseNames : List String :=
  ["str", "logging", "int", "bool"]

/-- The Python builtins the module's expressions could fall back to. -/
def pythonBuiltinNames : List String :=
  ["str", "int", "bool", "float", "list", "dict", "tuple", "set", "bytes",
   "print", "input", "range", "len", "divmod", "open", "Exception",
   "ValueError", "KeyboardInterrupt", "FileNotFoundError", "None", "True",
   "False"]

/-- Name resolution for an expression evaluated at the top level of
`linux_sleep.py` at line 39: module globals, then builtins. -/
def resolvesAtModuleLoad (n : String) : Bool :=
  linuxSleepTopLevelNames.contains n || pythonBuiltinNames.contains n

/-- Whether executing the `def sleep_system` statement — hence importing
`linux_sleep` at all — raises `NameError`: true iff annotations are eager
(no `__future__` import) and some annotation base name is unresolvable. -/
def importLinuxSleepRaisesNameError : Bool :=
  !linuxSleepHasFutureAnnotImport &&
    sleepSystemAnnotBaseNames.any (fun n => !resolvesAtModuleLoad n)

/-! ## Inhibit Controller (`linux_sleep.start_sleep_prevention`,
`linux_sleep.stop_sleep_prevention`) and prevent mode
(`linux_sleep.prevent_mode_loop`, `linux_sleep.signal_handler`)

Process-level state: the `prevent_process` global (the tracked `Popen`
handle, identified by its pid), the set of inhibitor child processes that
are currently alive, a pid allocator for `Popen`, and invocation counters
for the two controller operations. -/

structure ProcSt where
  /-- The `prevent_process` module global: pid of the tracked handle, or
  `none` (Python `None`).  The source never resets it to `None`. -/
  tracked : Option Nat
  /-- Pids of inhibitor child processes currently alive. -/
  liveProcs : List Nat
  /-- Next pid `subprocess.Popen` would allocate. -/
  nextPid : Nat
  startInvocations : Nat
  stopInvocations : Nat
deriving Repr, DecidableEq

/-- The state before `prevent_mode_loop` runs: no tracked handle, no live
inhibitor children. -/
def inhibitInit : ProcSt :=
  { tracked := none, liveProcs := [], nextPid := 1,
    startInvocations := 0, stopInvocations := 0 }

/-- Model of `start_sleep_prevention(reason, logger)`.  `spawnOk` tells whether
`subprocess.Popen(inhibit_cmd)` spawns (`false` covers the
`FileNotFoundError` and generic `except` branches, both of which return
`False` before the assignment to `prevent_process` happens).  On success a
new child is spawned and the global is overwritten with the new handle —
the function performs no check of the current `prevent_process`, so a
previously tracked live child stays alive and becomes untracked. -/
def start_sleep_prevention (spawnOk : Bool) (s : ProcSt) : ProcSt × Bool :=
  let s1 := { s with startInvocations := s.startInvocations + 1 }
  if spawnOk then
    ({ s1 with tracked := some s1.nextPid,
               liveProcs := s1.nextPid :: s1.liveProcs,
               nextPid := s1.nextPid + 1 }, true)
  else (s1, false)

/-- Result of one `stop_sleep_prevention` call: the `if prevent_process:`
guard was falsy (no-op), or the terminate/wait body ran and logged
"Sleep prevention stopped.". The source's `except` clause swallows every
exception, so the call never raises; it is total here for the same
reason. -/
inductive StopOutcome where
  | noOp
  | stopped
deriving Repr, DecidableEq

/-- Model of `stop_sleep_prevention(logger)`.  When `prevent_process` is `None` the
body is skipped entirely; otherwise `terminate()` (a no-op on an already
reaped child) and `wait(timeout=2)` run.  The global is NOT cleared. -/
def stop_sleep_prevention (s : ProcSt) : ProcSt × StopOutcome :=
  let s1 := { s with stopInvocations := s.stopInvocations + 1 }
  match s1.tracked with
  | none => (s1, .noOp)
  | some p => ({ s1 with liveProcs := s1.liveProcs.erase p }, .stopped)

/-- Python exceptions that steer prevent-mode control flow:
`KeyboardInterrupt` and `SystemExit(code)` raised by `sys.exit(code)`. -/
inductive PyExc where
  | kbInterrupt
  | sysExit (code : Nat)
deriving Repr, DecidableEq

/-- The `try: ... except KeyboardInterrupt: handler ... finally: fin`
statement of `prevent_mode_loop` (lines 167-174): the handler runs only for
`KeyboardInterrupt`; the `finally` block runs on every path; any other
exception (in particular `SystemExit`) propagates past the `except`. -/
def pyTryKbiFinally (body handler : ProcSt → ProcSt × Option PyExc)
    (fin : ProcSt → ProcSt) (s : ProcSt) : ProcSt × Option PyExc :=
  match body s with
  | (s1, some PyExc.kbInterrupt) =>
      match handler s1 with
      | (s2, e2) => (fin s2, e2)
  | (s1, e) => (fin s1, e)

/-- Model of `signal_handler(sig, frame)`: stops sleep prevention, then `sys.exit(0)`
raises `SystemExit(0)` at the point the handler interrupted. -/
def signal_handler_run (s : ProcSt) : ProcSt × Option PyExc :=
  ((stop_sleep_prevention s).1, some (PyExc.sysExit 0))

/-- The `while prevent_process and prevent_process.poll() is None:
time.sleep(1)` keep-alive body.  `interrupt = true`: SIGINT arrives during
`time.sleep`, and since `prevent_mode_loop` installed `signal_handler` for
SIGINT, that handler runs there (no `KeyboardInterrupt` is raised).
`interrupt = false`: the inhibitor child exits on its own, `poll()` becomes
non-`None` and the loop ends normally. -/
def keep_alive_body (interrupt : Bool) (s : ProcSt) : ProcSt × Option PyExc :=
  if interrupt then signal_handler_run s else (s, none)

/-- Model of `prevent_mode_loop(reason, logger)` together with the process exit code
it leads to.  On start failure, `sys.exit(1)`.  Otherwise the keep-alive
`try` runs: its `except KeyboardInterrupt` branch calls
`signal_handler(None, None)` and its `finally` calls
`stop_sleep_prevention`.  An escaping `SystemExit(c)` is uncaught in `main`,
so the process exits with code `c`; a normal return falls out of `main` and
the interpreter exits 0. -/
def prevent_mode_loop_run (spawnOk interrupt : Bool) (s : ProcSt) :
    ProcSt × Nat :=
  match start_sleep_prevention spawnOk s with
  | (s1, false) => (s1, 1)
  | (s1, true) =>
      match pyTryKbiFinally (keep_alive_body interrupt) signal_handler_run
          (fun st => (stop_sleep_prevention st).1) s1 with
      | (s2, some (PyExc.sysExit c)) => (s2, c)
      | (s2, _) => (s2, 0)

/-! ## Cycle Scheduler (`linux_sleep.sleep_mode_loop` lines 56-86,
`windows_sleep.main` loop lines 120-133)

Each loop iteration calls the Sleep Executor once; a run is therefore
driven by the finite list of executor outcomes it consumes (`true` =
`sleep_system` returned `True`).  An exhausted list means the run is still
ongoing — the Python loops are `while True`. -/

/-- What one loop iteration did: its cycle number, the delay it started
with, whether the mm:ss countdown was shown (`delay_minutes > 0`), and the
executor outcome it observed. -/
structure CycleRec where
  cycle : Nat
  delayMinutes : Nat
  countdownShown : Bool
  succeeded : Bool
deriving Repr, DecidableEq

/-- The body of `sleep_mode_loop`'s `while True:` (Linux): countdown iff
`delay_minutes > 0`, call `sleep_system`, `break` on failure, else set
`delay_minutes = wake_delay` and `cycle += 1`.  Returns the iteration
records and whether the loop exited via `break`. -/
def sleep_mode_loop_go (wake : Nat) :
    Nat → Nat → List Bool → List CycleRec × Bool
  | _, _, [] => ([], false)
  | cycle, delayMinutes, r :: rest =>
      let rec0 : CycleRec := ⟨cycle, delayMinutes, decide (0 < delayMinutes), r⟩
      if r then
        let next := sleep_mode_loop_go wake (cycle + 1) wake rest
        (rec0 :: next.1, next.2)
      else ([rec0], true)

/-- Model of `sleep_mode_loop(initial_delay, wake_delay, ...)`: starts at cycle 1
with `delay_minutes = initial_delay`. -/
def sleep_mode_loop (initialDelay wake : Nat) (outcomes : List Bool) :
    List CycleRec × Bool :=
  sleep_mode_loop_go wake 1 initialDelay outcomes

/-- Process exit code of the Linux schedule-mode path: when
`sleep_mode_loop` exits via `break`, it returns to `main`, `main` falls
through and the interpreter exits 0.  `none` = the loop is still running
after the given outcomes. -/
def linux_schedule_exit_code (initialDelay wake : Nat)
    (outcomes : List Bool) : Option Nat :=
  if (sleep_mode_loop initialDelay wake outcomes).2 then some 0 else none

/-- The `while True:` loop at the bottom of `windows_sleep.main`: identical
countdown/delay/cycle bookkeeping, but the result of `sleep_system` is
discarded — no branch inspects it, so the loop never stops. -/
def windows_main_loop_go (wake : Nat) :
    Nat → Nat → List Bool → List CycleRec
  | _, _, [] => []
  | cycle, delayMinutes, r :: rest =>
      ⟨cycle, delayMinutes, decide (0 < delayMinutes), r⟩ ::
        windows_main_loop_go wake (cycle + 1) wake rest

def windows_main_loop (initialDelay wake : Nat) (outcomes : List Bool) :
    List CycleRec :=
  windows_main_loop_go wake 1 initialDelay outcomes

/-! ## Helper lemmas -/

theorem listStartsWith_nil (s : List Char) : listStartsWith s [] = true := by
  cases s <;> rfl

theorem listStartsWith_append (p s : List Char) :
    listStartsWith (p ++ s) p = true := by
  induction p with
  | nil => simp [listStartsWith_nil]
  | cons a t ih => simp [listStartsWith, ih]

theorem listContainsSub_here (p s : List Char)
    (h : listStartsWith s p = true) : listContainsSub p s = true := by
  cases s with
  | nil =>
      cases p with
      | nil => rfl
      | cons a t => simp [listStartsWith] at h
  | cons c t => simp [listContainsSub, h]

theorem listContainsSub_append (xs p ys : List Char) :
    listContainsSub p (xs ++ (p ++ ys)) = true := by
  induction xs with
  | nil => exact listContainsSub_here p (p ++ ys) (listStartsWith_append p ys)
  | cons c t ih => simp [listContainsSub, ih]

theorem strContainsSub_append (a s b : String) :
    strContainsSub (a ++ s ++ b) s = true := by
  cases a with
  | mk da =>
    cases s with
    | mk ds =>
      cases b with
      | mk db =>
        show listContainsSub ds (da ++ ds ++ db) = true
        rw [List.append_assoc]
        exact listContainsSub_append da ds db

/-- A run whose first `n` executor calls succeed and whose call `n + 1`
fails makes the Linux loop record exactly `n + 1` cycles and exit via
`break`. -/
theorem sleep_mode_loop_go_stop (wake n : Nat) :
    ∀ c d rest,
      ((sleep_mode_loop_go wake c d
          (List.replicate n true ++ false :: rest)).1.length = n + 1) ∧
      ((sleep_mode_loop_go wake c d
          (List.replicate n true ++ false :: rest)).2 = true) := by
  induction n with
  | zero =>
      intro c d rest
      simp [sleep_mode_loop_go]
  | succ k ih =>
      intro c d rest
      simpa [List.replicate, sleep_mode_loop_go] using ih (c + 1) wake rest

/-- The Windows loop records one cycle per executor call, whatever the
outcomes were. -/
theorem windows_main_loop_go_length (wake : Nat) :
    ∀ (outcomes : List Bool) (c d : Nat),
      (windows_main_loop_go wake c d outcomes).length = outcomes.length := by
  intro outcomes
  induction outcomes with
  | nil => intro c d; rfl
  | cons r rest ih => intro c d; simp [windows_main_loop_go, ih]

/-- Once the pending delay is `wake`, every later Linux cycle record keeps
delay `wake`. -/
theorem sleep_mode_loop_go_all_wake (wake : Nat) :
    ∀ (outcomes : List Bool) (c : Nat),
      ((sleep_mode_loop_go wake c wake outcomes).1).all
        (fun r => r.delayMinutes == wake) = true := by
  intro outcomes
  induction outcomes with
  | nil => intro c; rfl
  | cons r rest ih =>
      intro c
      cases r <;> simp [sleep_mode_loop_go, ih]

/-- Once the pending delay is `wake`, every later Windows cycle record
keeps delay `wake`. -/
theorem windows_main_loop_go_all_wake (wake : Nat) :
    ∀ (outcomes : List Bool) (c : Nat),
      (windows_main_loop_go wake c wake outcomes).all
        (fun r => r.delayMinutes == wake) = true := by
  intro outcomes
  induction outcomes with
  | nil => intro c; rfl
  | cons r rest ih =>
      intro c
      simp [windows_main_loop_go, ih]

/-! ## Claim theorems -/

/-- Claim C1, counterexample.  With the Sleep Executor failing on the first
call, the Linux schedule path stops but exits with code 0 (not 1, as the
claim states), and the Windows schedule loop goes on to attempt cycle 2. -/
theorem C1_counterexample :
    linux_schedule_exit_code 0 5 [false] = some 0 ∧
    (some 0 : Option Nat) ≠ some 1 ∧
    (sleep_mode_loop 0 5 [false]).1.length = 1 ∧
    (windows_main_loop 0 5 [false, true]).map CycleRec.cycle = [1, 2] := by
  decide

/-- Claim C1, amended.  In a schedule-mode run whose first `n` executor
calls succeed and whose call `n + 1` fails: the Linux scheduler stops after
cycle `n + 1` (no retry, no further cycle) but the process then exits with
code 0, not 1; the Windows scheduler ignores the failure and attempts one
cycle per remaining executor call. -/
theorem C1_amended_failure_stops_linux_exit0_windows_continues
    (initialDelay wake n : Nat) (rest : List Bool) :
    ((sleep_mode_loop initialDelay wake
        (List.replicate n true ++ false :: rest)).1.length = n + 1) ∧
    ((sleep_mode_loop initialDelay wake
        (List.replicate n true ++ false :: rest)).2 = true) ∧
    (linux_schedule_exit_code initialDelay wake
        (List.replicate n true ++ false :: rest) = some 0) ∧
    ((windows_main_loop initialDelay wake
        (List.replicate n true ++ false :: rest)).length =
      n + 1 + rest.length) := by
  refine ⟨(sleep_mode_loop_go_stop wake n 1 initialDelay rest).1,
          (sleep_mode_loop_go_stop wake n 1 initialDelay rest).2, ?_, ?_⟩
  · unfold linux_schedule_exit_code
    rw [sleep_mode_loop, (sleep_mode_loop_go_stop wake n 1 initialDelay rest).2]
    rfl
  · rw [windows_main_loop, windows_main_loop_go_length]
    simp [List.length_append, List.replicate]
    omega

/-- Claim C2.  `linux_sleep.py` annotates `sleep_system`'s `logger`
parameter with `logging.Logger` (line 39) while its import block never
binds `logging` and there is no `from __future__ import annotations`, so
executing the `def` during module load — hence any import of the module —
raises `NameError` before any operation can run. -/
theorem C2_import_linux_sleep_raises_name_error :
    importLinuxSleepRaisesNameError = true ∧
    resolvesAtModuleLoad "logging" = false ∧
    sleepSystemAnnotBaseNames.contains "logging" = true := by
  decide

/-- Claim C3, counterexample.  `start_sleep_prevention` performs no check of
the current `prevent_process`: called a second time while the first handle
is still alive it reports success and leaves two live inhibitor children,
with the first one untracked — it silently creates a second concurrent
handle, contrary to the claim. -/
theorem C3_counterexample :
    ((start_sleep_prevention true inhibitInit).1.tracked = some 1) ∧
    ((start_sleep_prevention true inhibitInit).1.liveProcs = [1]) ∧
    ((start_sleep_prevention true
        (start_sleep_prevention true inhibitInit).1).2 = true) ∧
    ((start_sleep_prevention true
        (start_sleep_prevention true inhibitInit).1).1.liveProcs = [2, 1]) ∧
    ((start_sleep_prevention true
        (start_sleep_prevention true inhibitInit).1).1.liveProcs.length = 2) := by
  decide

/-- Claim C3, amended.  A successful `start_sleep_prevention` always spawns
one more inhibitor child and overwrites the tracked handle, whatever the
current state — so a start issued while a handle is active silently yields
two concurrent live handles; the at-most-one invariant is only a caller
obligation (the program's own prevent-mode entry calls start once). -/
theorem C3_amended_start_never_rejects (s : ProcSt) :
    (start_sleep_prevention true s).2 = true ∧
    (start_sleep_prevention true s).1.liveProcs = s.nextPid :: s.liveProcs ∧
    (start_sleep_prevention true s).1.tracked = some s.nextPid := by
  simp [start_sleep_prevention]

/-- Claim C4, counterexample.  In a prevent-mode run whose start succeeds
and which then receives a single SIGINT during the keep-alive loop,
`stop_sleep_prevention` is invoked twice — once by `signal_handler` and
once by the `finally` block the handler's `sys.exit(0)` unwinds through —
not exactly once; the exit code is 0 as the claim says. -/
theorem C4_counterexample :
    ((prevent_mode_loop_run true true inhibitInit).1.stopInvocations = 2) ∧
    ¬ ((prevent_mode_loop_run true true inhibitInit).1.stopInvocations = 1) ∧
    ((prevent_mode_loop_run true true inhibitInit).2 = 0) := by
  decide

/-- Claim C4, amended.  For every starting state, a prevent-mode run with a
successful start and a single interrupt during the keep-alive loop invokes
the inhibit stop operation exactly twice (handler, then `finally`) and
exits with code 0; start is invoked exactly once. -/
theorem C4_amended_stop_invoked_twice_exit_zero (s : ProcSt) :
    ((prevent_mode_loop_run true true s).1.stopInvocations =
      s.stopInvocations + 2) ∧
    ((prevent_mode_loop_run true true s).1.startInvocations =
      s.startInvocations + 1) ∧
    ((prevent_mode_loop_run true true s).2 = 0) := by
  simp [prevent_mode_loop_run, start_sleep_prevention, pyTryKbiFinally,
        keep_alive_body, signal_handler_run, stop_sleep_prevention]

/-- Claim C5, counterexample.  Neither `execute_sleep` has an
`except FileNotFoundError` clause: a missing sleep executable is handled by
the final `except Exception` branch, producing the generic "Unexpected
error during sleep" outcome whose spec kind is `Unknown`, not
`CommandNotFound` as the claim states. -/
theorem C5_counterexample :
    execute_sleep "suspend" 15
        (SpawnRes.fileNotFound "No such file or directory: systemctl") =
      (false,
        "Unexpected error during sleep: No such file or directory: systemctl") ∧
    executeSleepBranch
        (SpawnRes.fileNotFound "No such file or directory: systemctl") =
      ExecBranch.genericException ∧
    specFailureKindOfBranch ExecBranch.genericException =
      FailureKind.unknown ∧
    FailureKind.unknown ≠ FailureKind.commandNotFound := by
  decide

/-- Claim C5, amended.  For every sleep operation whose spawn fails with a
missing executable, both the Linux and the Windows Sleep Executor return
the generic-exception outcome — failure with the "Unexpected error during
sleep" message, spec kind `Unknown` — not `CommandNotFound`. -/
theorem C5_amended_missing_executable_is_unknown
    (sleepType : String) (t : Nat) (m : String) :
    execute_sleep sleepType t (SpawnRes.fileNotFound m) =
      (false, "Unexpected error during sleep: " ++ m) ∧
    windows_execute_sleep t (SpawnRes.fileNotFound m) =
      (false, "Unexpected error during sleep: " ++ m) ∧
    specFailureKindOfBranch (executeSleepBranch (SpawnRes.fileNotFound m)) =
      FailureKind.unknown :=
  ⟨rfl, rfl, rfl⟩

/-- Claim C6.  `stop_sleep_prevention` with no tracked handle
(`prevent_process is None`) skips its body: it is a no-op that completes
without error, and a second consecutive call behaves identically — both
calls return the no-op outcome and leave the handle state unchanged (the
source's `except` clause swallows every exception, so neither call can
raise). -/
theorem C6_stop_noop_idempotent (s : ProcSt) (h : s.tracked = none) :
    ((stop_sleep_prevention s).2 = StopOutcome.noOp) ∧
    ((stop_sleep_prevention (stop_sleep_prevention s).1).2 =
      StopOutcome.noOp) ∧
    ((stop_sleep_prevention s).1.tracked = none) ∧
    ((stop_sleep_prevention (stop_sleep_prevention s).1).1.tracked = none) ∧
    ((stop_sleep_prevention s).1.liveProcs = s.liveProcs) ∧
    ((stop_sleep_prevention (stop_sleep_prevention s).1).1.liveProcs =
      s.liveProcs) := by
  simp [stop_sleep_prevention, h]

/-- Claim C6, witness: the two consecutive no-op stops at the initial
prevent-mode state. -/
theorem C6_stop_noop_idempotent_witness :
    ((stop_sleep_prevention inhibitInit).2 = StopOutcome.noOp) ∧
    ((stop_sleep_prevention (stop_sleep_prevention inhibitInit).1).2 =
      StopOutcome.noOp) ∧
    ((stop_sleep_prevention inhibitInit).1.tracked = none) ∧
    ((stop_sleep_prevention
        (stop_sleep_prevention inhibitInit).1).1.tracked = none) ∧
    ((stop_sleep_prevention inhibitInit).1.liveProcs =
      inhibitInit.liveProcs) ∧
    ((stop_sleep_prevention
        (stop_sleep_prevention inhibitInit).1).1.liveProcs =
      inhibitInit.liveProcs) :=
  C6_stop_noop_idempotent inhibitInit rfl

/-- Claim C7.  For every positive timeout, a sleep command exceeding it
yields the Timeout outcome: failure with the "Sleep command timed out"
message, which contains the configured timeout value, and spec kind
`Timeout`. -/
theorem C7_timeout_outcome (sleepType : String) (t : Nat) (h : 0 < t) :
    (execute_sleep sleepType t SpawnRes.timesOut =
      (false,
        "Sleep command timed out after " ++ toString t ++ " seconds.")) ∧
    (windows_execute_sleep t SpawnRes.timesOut =
      (false,
        "Sleep command timed out after " ++ toString t ++ " seconds.")) ∧
    (specFailureKindOfBranch (executeSleepBranch SpawnRes.timesOut) =
      FailureKind.timeout) ∧
    (strContainsSub (execute_sleep sleepType t SpawnRes.timesOut).2
      (toString t) = true) := by
  refine ⟨rfl, rfl, rfl, ?_⟩
  exact strContainsSub_append "Sleep command timed out after " (toString t)
    " seconds."

/-- Claim C7, witness at timeout 3. -/
theorem C7_timeout_outcome_witness :
    (0 < 3) ∧
    ((execute_sleep "suspend" 3 SpawnRes.timesOut =
      (false,
        "Sleep command timed out after " ++ toString 3 ++ " seconds.")) ∧
    (windows_execute_sleep 3 SpawnRes.timesOut =
      (false,
        "Sleep command timed out after " ++ toString 3 ++ " seconds.")) ∧
    (specFailureKindOfBranch (executeSleepBranch SpawnRes.timesOut) =
      FailureKind.timeout) ∧
    (strContainsSub (execute_sleep "suspend" 3 SpawnRes.timesOut).2
      (toString 3) = true)) :=
  ⟨by decide, C7_timeout_outcome "suspend" 3 (by decide)⟩

/-- Claim C8.  In every schedule-mode run (Linux loop and Windows loop
alike), cycle 1 starts with the configured initial delay and shows a
countdown exactly when that delay is positive (so `initialDelayMinutes = 0`
executes immediately), and every cycle after the first — i.e. every cycle
reached because its predecessor completed successfully — starts with a
pending delay equal to `wakeDelayMinutes`, regardless of the initial
delay. -/
theorem C8_cycle_delays (initialDelay wake : Nat) (o : Bool)
    (rest : List Bool) :
    ((sleep_mode_loop initialDelay wake (o :: rest)).1.head? =
      some ⟨1, initialDelay, decide (0 < initialDelay), o⟩) ∧
    (((sleep_mode_loop initialDelay wake (o :: rest)).1.tail).all
      (fun r => r.delayMinutes == wake) = true) ∧
    ((windows_main_loop initialDelay wake (o :: rest)).head? =
      some ⟨1, initialDelay, decide (0 < initialDelay), o⟩) ∧
    (((windows_main_loop initialDelay wake (o :: rest)).tail).all
      (fun r => r.delayMinutes == wake) = true) := by
  cases o with
  | false =>
      refine ⟨rfl, rfl, rfl, ?_⟩
      simpa [windows_main_loop, windows_main_loop_go] using
        windows_main_loop_go_all_wake wake rest 2
  | true =>
      refine ⟨rfl, ?_, rfl, ?_⟩
      · simpa [sleep_mode_loop, sleep_mode_loop_go] using
          sleep_mode_loop_go_all_wake wake rest 2
      · simpa [windows_main_loop, windows_main_loop_go] using
          windows_main_loop_go_all_wake wake rest 2

/-- Claim C9.  For a valid sleep type, `check_sleep_permissions` classifies
a non-zero dry-run exit whose lower-cased stderr contains "authentication"
as the permission-denied outcome (spec kind `PermissionDenied`, not
`Unknown`), classifies a dry-run exceeding its fixed 5-second bound as
`Timeout`, and a missing `systemctl` as `CommandNotFound`. -/
theorem C9_permission_classification (sleepType : String)
    (hst : sleepType = "suspend" ∨ sleepType = "hibernate" ∨
      sleepType = "hybrid-sleep")
    (rc : Int) (hrc : rc ≠ 0) (errText : String)
    (hauth : strContainsSub (strLower errText) "authentication" = true) :
    (checkPermissionsBranch sleepType (ProbeRes.completes rc errText) =
      PermBranch.authDenied) ∧
    (specPermKindOfBranch
        (checkPermissionsBranch sleepType (ProbeRes.completes rc errText)) =
      FailureKind.permissionDenied) ∧
    (FailureKind.permissionDenied ≠ FailureKind.unknown) ∧
    (check_sleep_permissions sleepType (ProbeRes.completes rc errText) =
      (false, "Insufficient permissions for " ++ sleepType ++
        ". Try running with sudo or configure polkit rules.")) ∧
    (specPermKindOfBranch
        (checkPermissionsBranch sleepType ProbeRes.timesOut) =
      FailureKind.timeout) ∧
    (specPermKindOfBranch
        (checkPermissionsBranch sleepType ProbeRes.fileNotFound) =
      FailureKind.commandNotFound) ∧
    (permissionCheckTimeoutSeconds = 5) := by
  rcases hst with h | h | h <;> subst h <;>
    simp [checkPermissionsBranch, check_sleep_permissions, hrc, hauth,
      specPermKindOfBranch, permissionCheckTimeoutSeconds]

/-- Claim C9, witness: sleep type "suspend", dry-run exit code 1, stderr
"Interactive AUTHENTICATION required" (upper-case, exercising the
case-insensitive match). -/
theorem C9_permission_classification_witness :
    (("suspend" : String) = "suspend" ∨ ("suspend" : String) = "hibernate" ∨
      ("suspend" : String) = "hybrid-sleep") ∧
    ((1 : Int) ≠ 0) ∧
    (strContainsSub (strLower "Interactive AUTHENTICATION required")
      "authentication" = true) ∧
    ((checkPermissionsBranch "suspend"
        (ProbeRes.completes 1 "Interactive AUTHENTICATION required") =
      PermBranch.authDenied) ∧
    (specPermKindOfBranch
        (checkPermissionsBranch "suspend"
          (ProbeRes.completes 1 "Interactive AUTHENTICATION required")) =
      FailureKind.permissionDenied) ∧
    (FailureKind.permissionDenied ≠ FailureKind.unknown) ∧
    (check_sleep_permissions "suspend"
        (ProbeRes.completes 1 "Interactive AUTHENTICATION required") =
      (false, "Insufficient permissions for " ++ "suspend" ++
        ". Try running with sudo or configure polkit rules.")) ∧
    (specPermKindOfBranch
        (checkPermissionsBranch "suspend" ProbeRes.timesOut) =
      FailureKind.timeout) ∧
    (specPermKindOfBranch
        (checkPermissionsBranch "suspend" ProbeRes.fileNotFound) =
      FailureKind.commandNotFound) ∧
    (permissionCheckTimeoutSeconds = 5)) :=
  ⟨Or.inl rfl, by decide, by decide,
    C9_permission_classification "suspend" (Or.inl rfl) 1 (by decide)
      "Interactive AUTHENTICATION required" (by decide)⟩

/-- Claim C10.  In both CLI layers, `--timeout 0` and `--wake-delay 0` are
merged with Python `or`, so the zero is falsy and silently replaced by the
configured value (default 15 seconds and 5 minutes respectively) — under
the default configuration no command-line value can produce a zero timeout
or zero wake delay — whereas `--delay 0` is merged with an
`is not None` check and therefore honored. -/
theorem C10_cli_zero_merge :
    (∀ cfgT : Option Int, mergeTimeout (some 0) cfgT = cfgGet cfgT 15) ∧
    (∀ cfgW : Option Int, mergeWakeDelay (some 0) cfgW = cfgGet cfgW 5) ∧
    (mergeTimeout (some 0) none = 15) ∧
    (mergeWakeDelay (some 0) none = 5) ∧
    (∀ cfgD : Option Int, mergeInitialDelay (some 0) cfgD = 0) ∧
    (∀ cli : Option Int, (mergeTimeout cli none == 0) = false) ∧
    (∀ cli : Option Int, (mergeWakeDelay cli none == 0) = false) := by
  refine ⟨fun cfgT => rfl, fun cfgW => rfl, rfl, rfl, fun cfgD => rfl,
    ?_, ?_⟩ <;>
  · intro cli
    match cli with
    | none => rfl
    | some v =>
        simp only [mergeTimeout, mergeWakeDelay, pyOrInt, cfgGet,
          Option.getD]
        by_cases hv : v = 0
        · simp [hv]
        · simp [hv]

end SystemSleep
